import Mathlib

/-!
Shallow embedding of the `mcp-server-cluster-services` repository
(TypeScript) for checking its natural-language specification.

The embedding covers:
  * the input validators (`src/utils/validation.ts`),
  * the URL Guard (`src/utils/urlValidation.ts`),
  * the fixed-window rate limiter (`src/utils/rateLimiter.ts`),
  * the response-header sanitizer and probe client (`src/services/httpClient.ts`),
  * the discovery engine (`src/services/serviceDiscovery.ts`),
  * the tool handlers `list_services`, `get_service_health` and the two
    variants of `test_endpoint` found in the tree (one applies the URL
    Guard to every candidate URL, the other builds URLs with `new URL`
    and never consults the Guard).

External effects (HTTP probes, Kubernetes API calls, the clock) are
modelled as explicit environment records passed to the embedded
functions; each handler additionally returns the ordered list of URLs it
handed to the probe client, so that statements about "no probe is
issued" or "every probed URL passes the Guard" are expressible.

JavaScript `Error` subclasses are modelled by `Except String`; which
constructor was thrown is irrelevant to the claims checked here beyond
success/failure, except where noted in comments.
-/

namespace ClusterServices

/-! ## String primitives

All string manipulation is defined over the character list `s.data`, so
that every definition evaluates inside the kernel (`decide`/`rfl`);
the byte-based core `String` functions are avoided. -/

/-- Lowercase a string (`toLowerCase` on the ASCII range in use). -/
def strLower (s : String) : String := ⟨s.data.map Char.toLower⟩

/-- Uppercase a string (`toUpperCase` on the ASCII range in use). -/
def strUpper (s : String) : String := ⟨s.data.map Char.toUpper⟩

/-- Is the string empty? -/
def strIsEmpty (s : String) : Bool := s.data.isEmpty

/-- `s.startsWith(pre)`. -/
def strStartsWith (s pre : String) : Bool := pre.data.isPrefixOf s.data

/-- `s.endsWith(suf)`. -/
def strEndsWith (s suf : String) : Bool := suf.data.isSuffixOf s.data

/-- Drop the last `n` characters. -/
def strDropRight (s : String) (n : Nat) : String :=
  ⟨s.data.take (s.data.length - n)⟩

/-- Drop the first `n` characters. -/
def strDropLeft (s : String) (n : Nat) : String := ⟨s.data.drop n⟩

/-- The whitespace characters `trim` strips in the inputs in use. -/
def isJsWhitespace (c : Char) : Bool :=
  c = ' ' || c = '\t' || c = '\n' || c = '\r'

/-- `s.trim()`. -/
def strTrim (s : String) : String :=
  ⟨((s.data.dropWhile isJsWhitespace).reverse.dropWhile isJsWhitespace).reverse⟩

/-- Read a digit string as a number. -/
def charsToNat (cs : List Char) : Nat :=
  cs.foldl (fun acc c => acc * 10 + (c.toNat - 48)) 0

/-- Split on a single character (the separator uses of `split`). -/
def splitCharAux (c : Char) : List Char → List Char → List String
  | [], acc => [⟨acc.reverse⟩]
  | x :: xs, acc =>
    if x = c then (⟨acc.reverse⟩ : String) :: splitCharAux c xs []
    else splitCharAux c xs (x :: acc)

/-- Split a string on a single character. -/
def splitOnChar (c : Char) (s : String) : List String :=
  splitCharAux c s.data []

/-- Join strings with a separator (`Array.join`). -/
def strJoin (sep : String) : List String → String
  | [] => ""
  | [x] => x
  | x :: xs => x ++ sep ++ strJoin sep xs



/-- A primitive JavaScript value. -/
inductive JsPrim where
  | undefined
  | null
  | str (s : String)
  | num (n : Int)
  | boolean (b : Bool)
deriving Repr, DecidableEq

/-- A JavaScript value, as far as the validators inspect one:
`typeof x === "string"`, `=== undefined`, `=== null`, `Array.isArray`,
plain objects, numbers and booleans.  Objects and arrays are modelled
one level deep (their members primitive); the validators only ever
stringify nested members, which no claim exercises. -/
inductive JsVal where
  | prim (p : JsPrim)
  | obj (fields : List (String × JsPrim))
  | arr (elems : List JsPrim)
deriving Repr, DecidableEq

/-- `undefined` as a `JsVal`. -/
def JsVal.undefined : JsVal := .prim .undefined

/-- `null` as a `JsVal`. -/
def JsVal.null : JsVal := .prim .null

/-- A string as a `JsVal`. -/
def JsVal.str (s : String) : JsVal := .prim (.str s)

/-- A number as a `JsVal`. -/
def JsVal.num (n : Int) : JsVal := .prim (.num n)

/-- JavaScript truthiness, restricted to the values `JsVal` models:
`undefined`, `null`, `""`, `0` and `false` are falsy, everything else
(including empty objects and arrays) is truthy. -/
def JsVal.truthy : JsVal → Bool
  | .prim .undefined => false
  | .prim .null => false
  | .prim (.str s) => !(strIsEmpty s)
  | .prim (.num n) => n != 0
  | .prim (.boolean b) => b
  | .obj _ => true
  | .arr _ => true

/-- `String(value)` coercion for primitive values, as used by
`validateQueryParams` / `validateHeaders`. -/
def JsPrim.toJsString : JsPrim → String
  | .undefined => "undefined"
  | .null => "null"
  | .str s => s
  | .num n => toString n
  | .boolean b => if b then "true" else "false"

/-- JavaScript `a || b` for an optional string field (the empty string is
falsy and falls through to the default). -/
def jsOrStr (a : Option String) (b : String) : String :=
  match a with
  | some s => if strIsEmpty s then b else s
  | none => b

/-- JavaScript `a || b` where both sides are optional strings
(`details.summary || details.description`). -/
def jsOrOptStr (a b : Option String) : Option String :=
  match a with
  | some s => if strIsEmpty s then b else some s
  | none => b

/-- JavaScript `a || b` for an optional numeric field (`0` is falsy). -/
def jsOrNat (a : Option Nat) (b : Nat) : Nat :=
  match a with
  | some n => if n = 0 then b else n
  | none => b

/-! ## Character classes and string helpers (embedding the regexes) -/

/-- A character allowed anywhere in a Kubernetes DNS label:
`[-a-z0-9]`. -/
def isNameChar (c : Char) : Bool :=
  (c ≥ 'a' && c ≤ 'z') || (c ≥ '0' && c ≤ '9') || c = '-'

/-- A character allowed at the edges of a Kubernetes DNS label:
`[a-z0-9]`. -/
def isNameEdgeChar (c : Char) : Bool :=
  (c ≥ 'a' && c ≤ 'z') || (c ≥ '0' && c ≤ '9')

/-- The regex `^[a-z0-9]([-a-z0-9]*[a-z0-9])?$` used for service names,
namespaces and the `<dns-label>` part of the allowed host patterns:
non-empty, every character in `[-a-z0-9]`, first and last characters in
`[a-z0-9]`. -/
def isDnsLabel (s : String) : Bool :=
  match s.data with
  | [] => false
  | c :: cs =>
    isNameEdgeChar c &&
    (match cs with
     | [] => true
     | _ => cs.all isNameChar && isNameEdgeChar (cs.getLastD c))

/-- A character allowed in an endpoint path after the leading slash:
`[a-zA-Z0-9/\-_.]`. -/
def isEndpointChar (c : Char) : Bool :=
  (c ≥ 'a' && c ≤ 'z') || (c ≥ 'A' && c ≤ 'Z') || (c ≥ '0' && c ≤ '9') ||
  c = '/' || c = '-' || c = '_' || c = '.'

/-- Decimal digit test used by the port parser. -/
def isDigitChar (c : Char) : Bool :=
  c ≥ '0' && c ≤ '9'

/-- ASCII letter test used by the URL scheme parser. -/
def isAlphaChar (c : Char) : Bool :=
  (c ≥ 'a' && c ≤ 'z') || (c ≥ 'A' && c ≤ 'Z')

/-- Parse a non-empty all-digit string to a number (`parseInt(s, 10)` on
the strings the URL parser feeds it). -/
def parseDecimal (s : String) : Option Nat :=
  if strIsEmpty s then none
  else if s.data.all isDigitChar then some (charsToNat s.data)
  else none

/-! ## URL model

A simplified model of the WHATWG `URL` object, covering the absolute
`http(s)://host[:port]/path[?query]` shapes this code builds and
relative resolution of a `/`-rooted path against such a base.  The
hostname is stored lowercased and a default port (80 for http, 443 for
https) is normalized away, as the real `URL` does. -/

structure UrlModel where
  scheme : String
  hostname : String
  port : Option Nat
  path : String
  query : List (String × String)
deriving Repr, DecidableEq

/-- Split a string at the first occurrence of a character, if any. -/
def splitFirst (c : Char) (s : String) : Option (String × String) :=
  match s.data.findIdx? (· = c) with
  | none => none
  | some i => some (⟨s.data.take i⟩, ⟨s.data.drop (i + 1)⟩)

/-- Split a string at the last occurrence of a character, if any. -/
def splitLast (c : Char) (s : String) : Option (String × String) :=
  match (splitFirst c ⟨s.data.reverse⟩) with
  | none => none
  | some (after, before) => some (⟨before.data.reverse⟩, ⟨after.data.reverse⟩)

/-- Parse `k=v` pairs separated by `&` (the query-string reading used by
`url.searchParams`; percent-decoding is not modelled, the code never
feeds encoded input here). -/
def parseQueryPairs (s : String) : List (String × String) :=
  if strIsEmpty s then []
  else (splitOnChar '&' s).map fun kv =>
    match splitFirst '=' kv with
    | some (k, v) => (k, v)
    | none => (kv, "")

/-- Parse an absolute URL of shape `scheme://host[:port]/path[?query]`.
Returns `none` where `new URL(s)` would throw for the shapes in use
(no `://`, empty or malformed scheme/host/port). -/
def parseAbsUrl (s : String) : Option UrlModel := do
  let (schemeRaw, rest) ← splitFirst ':' s
  let restData := rest.data
  match restData with
  | '/' :: '/' :: afterSlashes =>
    let after : String := ⟨afterSlashes⟩
    if strIsEmpty schemeRaw || !(schemeRaw.data.all isAlphaChar) then none else
    let scheme := strLower schemeRaw
    -- authority runs until the first '/' or '?'
    let authLen := (after.data.takeWhile (fun c => c ≠ '/' && c ≠ '?')).length
    let authority : String := ⟨after.data.take authLen⟩
    let tail : String := ⟨after.data.drop authLen⟩
    let (hostRaw, portOpt) ←
      match splitLast ':' authority with
      | none => some (authority, (none : Option Nat))
      | some (h, p) =>
        if strIsEmpty p then some (h, none)
        else match parseDecimal p with
          | some n => some (h, some n)
          | none => none
    if strIsEmpty hostRaw then none else
    let hostname := strLower hostRaw
    -- normalize the scheme's default port away, as WHATWG URL does
    let port :=
      match portOpt with
      | some 80 => if scheme = "http" then none else some 80
      | some 443 => if scheme = "https" then none else some 443
      | p => p
    let (path, query) :=
      match splitFirst '?' tail with
      | none => (if strIsEmpty tail then "/" else tail, [])
      | some (p, q) => (if strIsEmpty p then "/" else p, parseQueryPairs q)
    some { scheme, hostname, port, path, query }
  | _ => none

/-- `new URL(input, base)`: an absolute input ignores the base; a
`/`-rooted input replaces the base's path and query.  Other relative
forms never occur in this code and are not modelled (`none`). -/
def parseUrlWith (input : String) (base : Option String) : Option UrlModel :=
  match parseAbsUrl input with
  | some u => some u
  | none =>
    match base with
    | none => none
    | some b =>
      match parseAbsUrl b with
      | none => none
      | some ub =>
        if strStartsWith input "/" then
          match splitFirst '?' input with
          | none => some { ub with path := input, query := [] }
          | some (p, q) => some { ub with path := p, query := parseQueryPairs q }
        else none

/-- `url.searchParams.append` for each pair, in order. -/
def appendQueryParams (u : UrlModel) (ps : List (String × String)) : UrlModel :=
  { u with query := u.query ++ ps }

/-- `url.href` / `url.toString()` for the modelled shapes. -/
def UrlModel.href (u : UrlModel) : String :=
  u.scheme ++ "://" ++ u.hostname ++
  (match u.port with
   | none => ""
   | some p => ":" ++ toString p) ++
  u.path ++
  (match u.query with
   | [] => ""
   | ps => "?" ++ strJoin "&" (ps.map fun kv => kv.1 ++ "=" ++ kv.2))

/-! ## URL Guard (`src/utils/urlValidation.ts`) -/

/-- The allow-listed namespaces appearing in `ALLOWED_HOST_PATTERNS`. -/
def allowedNamespaces : List String :=
  ["default", "kube-system", "monitoring"]

/-- Whether `hostname` matches
`^<dns-label>.<ns>.svc.cluster.local$` for the given namespace
(one entry of `ALLOWED_HOST_PATTERNS`). -/
def matchesNsPattern (ns hostname : String) : Bool :=
  let suffix := "." ++ ns ++ ".svc.cluster.local"
  strEndsWith hostname suffix &&
  isDnsLabel (strDropRight hostname suffix.data.length)

/-- `ALLOWED_HOST_PATTERNS.some(pattern => pattern.test(hostname))`. -/
def hostAllowed (hostname : String) : Bool :=
  allowedNamespaces.any (fun ns => matchesNsPattern ns hostname)

/-- `ALLOWED_PORTS`. -/
def ALLOWED_PORTS : List Nat := [80, 443, 8080, 3000, 3001, 9090]

/-- `validateUrl(url, baseUrl?)`: parse (throwing `ValidationError` on
parse failure), then require an http/https protocol, an allow-listed
cluster-internal hostname, and — if an explicit port is present — an
allow-listed port. -/
def validateUrl (url : String) (baseUrl : Option String := none) :
    Except String UrlModel :=
  match parseUrlWith url baseUrl with
  | none => .error "Invalid URL"
  | some parsedUrl =>
    if parsedUrl.scheme ≠ "http" && parsedUrl.scheme ≠ "https" then
      .error "Only HTTP and HTTPS protocols are allowed"
    else
      let hostname := strLower parsedUrl.hostname
      if !(hostAllowed hostname) then
        .error "Only cluster-internal services are allowed"
      else
        match parsedUrl.port with
        | some port =>
          if !(ALLOWED_PORTS.contains port) then
            .error "Port is not allowed"
          else .ok parsedUrl
        | none => .ok parsedUrl

/-- Modelled from the spec's words (§4.2, claim C2), for comparison with
`validateUrl`: the candidate parses as a URL whose scheme is http or
https, whose hostname is `<dns-label>.<ns>.svc.cluster.local` for an
allow-listed namespace (hostname matching is case-insensitive, hence on
the lowercased hostname), and whose explicit port, if any, is in the
allow-list. -/
def urlGuardSpec (url : String) (baseUrl : Option String := none) : Bool :=
  match parseUrlWith url baseUrl with
  | none => false
  | some u =>
    (u.scheme = "http" || u.scheme = "https") &&
    allowedNamespaces.any (fun ns => matchesNsPattern ns (strLower u.hostname)) &&
    (match u.port with
     | some p => ALLOWED_PORTS.contains p
     | none => true)

/-! ## Input validators (`src/utils/validation.ts`)

Each validator takes an untyped argument and either returns the
validated value or throws a `ValidationError` (modelled as `.error`). -/

/-- `validateServiceName`: must be a string, non-empty after trimming,
and match `^[a-z0-9]([-a-z0-9]*[a-z0-9])?$` (the regex is tested on the
untrimmed string, the trimmed string is returned, as in the source). -/
def validateServiceName (name : JsVal) : Except String String :=
  match name with
  | .prim (.str s) =>
    if strIsEmpty (strTrim s) then .error "Service name must be a non-empty string"
    else if !(isDnsLabel s) then
      .error "Service name must be a valid Kubernetes name"
    else .ok (strTrim s)
  | _ => .error "Service name must be a non-empty string"

/-- `validateNamespace`: `undefined`/`null` and blank strings default to
`"default"`; otherwise the trimmed string must match the Kubernetes
name regex. -/
def validateNamespace (ns : JsVal) : Except String String :=
  match ns with
  | .prim .undefined => .ok "default"
  | .prim .null => .ok "default"
  | .prim (.str s) =>
    let ns := strTrim s
    if strIsEmpty ns then .ok "default"
    else if !(isDnsLabel ns) then
      .error "Namespace must be a valid Kubernetes name"
    else .ok ns
  | _ => .error "Namespace must be a string"

/-- `validateHttpMethod`: only `GET`, `HEAD`, `OPTIONS`, matched after
upper-casing; anything else (including non-strings) throws. -/
def validateHttpMethod (method : JsVal) : Except String String :=
  match method with
  | .prim (.str s) =>
    let upperMethod := strUpper s
    if upperMethod ≠ "GET" && upperMethod ≠ "HEAD" && upperMethod ≠ "OPTIONS" then
      .error "Only safe HTTP methods are allowed: GET, HEAD, OPTIONS"
    else .ok upperMethod
  | _ => .error "HTTP method must be a string"

/-- `validateEndpoint`: a non-blank string that, after trimming, starts
with `/` and matches `^\/[a-zA-Z0-9\/\-_\.]*$`. -/
def validateEndpoint (endpoint : JsVal) : Except String String :=
  match endpoint with
  | .prim (.str s) =>
    if strIsEmpty (strTrim s) then .error "Endpoint must be a non-empty string"
    else
      let path := strTrim s
      if !(strStartsWith path "/") then .error "Endpoint must start with a slash"
      else if !((strDropLeft path 1).data.all isEndpointChar) then
        .error "Endpoint contains invalid characters"
      else .ok path
  | _ => .error "Endpoint must be a non-empty string"

/-- `validateTimeout`: absent defaults to 5000; otherwise a number in
`[100, 30000]`. -/
def validateTimeout (timeout : JsVal) : Except String Int :=
  match timeout with
  | .prim .undefined => .ok 5000
  | .prim .null => .ok 5000
  | .prim (.num t) =>
    if t < 100 || t > 30000 then
      .error "Timeout must be between 100 and 30000 milliseconds"
    else .ok t
  | _ => .error "Timeout must be a number"

/-- `validateQueryParams`: absent yields `{}`; arrays and non-objects
throw; values are coerced with `String(value)`. -/
def validateQueryParams (params : JsVal) : Except String (List (String × String)) :=
  match params with
  | .prim .undefined => .ok []
  | .prim .null => .ok []
  | .obj fields => .ok (fields.map fun kv => (kv.1, kv.2.toJsString))
  | _ => .error "Query parameters must be an object"

/-- `validateHeaders`: same shape rules as `validateQueryParams`. -/
def validateHeaders (headers : JsVal) : Except String (List (String × String)) :=
  match headers with
  | .prim .undefined => .ok []
  | .prim .null => .ok []
  | .obj fields => .ok (fields.map fun kv => (kv.1, kv.2.toJsString))
  | _ => .error "Headers must be an object"

/-! ## Rate limiter (`src/utils/rateLimiter.ts`) -/

/-- One entry of the limiter's map. -/
structure RateLimitEntry where
  count : Nat
  resetTime : Nat
deriving Repr, DecidableEq

/-- The limiter's state: its configuration and the `requests` map,
modelled as an association list keyed by the limit key. -/
structure RateLimiter where
  windowMs : Nat := 60000
  maxRequests : Nat := 100
  requests : List (String × RateLimitEntry) := []
deriving Repr, DecidableEq

/-- `Map.set`: replace the entry for `key`, or append it. -/
def mapSet (m : List (String × RateLimitEntry)) (key : String)
    (e : RateLimitEntry) : List (String × RateLimitEntry) :=
  match m with
  | [] => [(key, e)]
  | (k, v) :: rest =>
    if k = key then (k, e) :: rest else (k, v) :: mapSet rest key e

/-- `RateLimiter.check(key)` at clock value `now`: returns the updated
limiter and `true` when the request is allowed, or the unchanged limiter
and `false` when a `RateLimitError` is thrown.  A fresh window is opened
on first use of the key or once `now > resetTime`; otherwise the request
is rejected iff `count >= maxRequests`, and the count is incremented. -/
def RateLimiter.check (rl : RateLimiter) (key : String) (now : Nat) :
    RateLimiter × Bool :=
  match rl.requests.lookup key with
  | none =>
    ({ rl with requests := mapSet rl.requests key ⟨1, now + rl.windowMs⟩ }, true)
  | some entry =>
    if now > entry.resetTime then
      ({ rl with requests := mapSet rl.requests key ⟨1, now + rl.windowMs⟩ }, true)
    else if entry.count ≥ rl.maxRequests then
      (rl, false)
    else
      ({ rl with requests := mapSet rl.requests key ⟨entry.count + 1, entry.resetTime⟩ }, true)

/-- `RateLimiter.cleanup()`: drop entries whose window has expired. -/
def RateLimiter.cleanup (rl : RateLimiter) (now : Nat) : RateLimiter :=
  { rl with requests := rl.requests.filter fun kv => !(now > kv.2.resetTime) }

/-! ## HTTP client (`src/services/httpClient.ts`) -/

/-- `b` occurs as a contiguous substring of `a`?  (JavaScript
`a.includes(b)` on strings, on the character lists.) -/
def charsInclude (hay needle : List Char) : Bool :=
  match hay with
  | [] => needle.isEmpty
  | _ :: t => needle.isPrefixOf hay || charsInclude t needle

/-- `sensitiveKeys` of `HttpClient.sanitizeHeaders`. -/
def sensitiveKeys : List String :=
  ["authorization", "cookie", "set-cookie", "x-api-key"]

/-- A raw response-header value: a string or an array of strings
(axios surfaces repeated headers as arrays). -/
inductive HeaderVal where
  | one (s : String)
  | many (ss : List String)
deriving Repr, DecidableEq

/-- `Array.isArray(value) ? value.join(", ") : String(value)`. -/
def HeaderVal.stringify : HeaderVal → String
  | .one s => s
  | .many ss => strJoin ", " ss

/-- Is this header name sensitive: does its lowercased form contain one
of `sensitiveKeys` as a substring? -/
def isSensitiveHeader (key : String) : Bool :=
  sensitiveKeys.any fun sk => charsInclude (strLower key).data sk.data

/-- `HttpClient.sanitizeHeaders`: sensitive headers are replaced by
`"[REDACTED]"`, every other value is stringified. -/
def sanitizeHeaders (headers : List (String × HeaderVal)) : List (String × String) :=
  headers.map fun kv =>
    if isSensitiveHeader kv.1 then (kv.1, "[REDACTED]")
    else (kv.1, kv.2.stringify)

/-- What the underlying axios call produced for one request: a response
(any status code — `validateStatus` accepts them all), an error carrying
a response, or a transport error with a code string
(`ECONNREFUSED`, `ETIMEDOUT`, `ECONNABORTED`, or anything else). -/
inductive AxiosOutcome where
  | response (status : Nat) (headers : List (String × HeaderVal)) (body : Option String)
  | errorResponse (status : Nat) (headers : List (String × HeaderVal)) (body : Option String)
  | transportError (code : String) (message : String)
deriving Repr, DecidableEq

/-- The processed result `HttpClient.get/head/options` return.  `body`
is kept only by `get` in the source; `head`/`options` omit it, which the
model reflects by setting it to `none` there. -/
structure ProcessedResp where
  statusCode : Nat
  headers : List (String × String)
  body : Option String := none
  responseTime : Nat := 0
deriving Repr, DecidableEq

/-- The `HttpError` thrown on transport failure: its carried status code
is always the sentinel 0 in the source. -/
structure HttpErr where
  message : String
  statusCode : Nat := 0
deriving Repr, DecidableEq

/-- Common error translation of the three catch blocks. -/
def translateTransportError (code message : String) : HttpErr :=
  if code = "ECONNREFUSED" then ⟨"Connection refused - service may be down", 0⟩
  else if code = "ETIMEDOUT" || code = "ECONNABORTED" then ⟨"Request timeout", 0⟩
  else ⟨"HTTP request failed: " ++ message, 0⟩

/-- `HttpClient.get`, given what axios did (`outcome`) and the measured
`responseTime`: any response — normal or attached to an error — is
returned with sanitized headers; transport errors become `HttpErr`
with status code 0. -/
def HttpClient.get (outcome : AxiosOutcome) (responseTime : Nat) :
    Except HttpErr ProcessedResp :=
  match outcome with
  | .response status headers body =>
    .ok ⟨status, sanitizeHeaders headers, body, responseTime⟩
  | .errorResponse status headers body =>
    .ok ⟨status, sanitizeHeaders headers, body, responseTime⟩
  | .transportError code message =>
    .error (translateTransportError code message)

/-- `HttpClient.head`: as `get` but without a body. -/
def HttpClient.head (outcome : AxiosOutcome) (responseTime : Nat) :
    Except HttpErr ProcessedResp :=
  match outcome with
  | .response status headers _ =>
    .ok ⟨status, sanitizeHeaders headers, none, responseTime⟩
  | .errorResponse status headers _ =>
    .ok ⟨status, sanitizeHeaders headers, none, responseTime⟩
  | .transportError code message =>
    .error (translateTransportError code message)

/-- `HttpClient.options`: as `head`. -/
def HttpClient.options (outcome : AxiosOutcome) (responseTime : Nat) :
    Except HttpErr ProcessedResp :=
  match outcome with
  | .response status headers _ =>
    .ok ⟨status, sanitizeHeaders headers, none, responseTime⟩
  | .errorResponse status headers _ =>
    .ok ⟨status, sanitizeHeaders headers, none, responseTime⟩
  | .transportError code message =>
    .error (translateTransportError code message)

/-! ## Service registry (`src/config/services.ts`) -/

/-- One declared endpoint of a registry entry. -/
structure RegistryEndpoint where
  path : String
  method : String
  description : Option String := none
deriving Repr, DecidableEq

/-- `ServiceConfig`. -/
structure ServiceConfig where
  name : String
  «namespace» : String
  port : Nat
  baseUrl : String
  healthEndpoint : Option String := none
  endpoints : Option (List RegistryEndpoint) := none
deriving Repr, DecidableEq

/-- The static `SERVICE_REGISTRY` shipped in the source tree: one entry
for `homepage` in `default`. -/
def SERVICE_REGISTRY : List ServiceConfig :=
  [{ name := "homepage"
     «namespace» := "default"
     port := 8080
     baseUrl := "http://homepage.default.svc.cluster.local:8080"
     healthEndpoint := some "/"
     endpoints := some
       [⟨"/", "GET", some "Main homepage"⟩,
        ⟨"/about.html", "GET", some "About page"⟩,
        ⟨"/api/fetch-data", "GET", some "Fetch and save homepage data from MongoDB"⟩,
        ⟨"/api/cluster-metrics", "GET", some "Get cluster metrics"⟩,
        ⟨"/api/add-project", "POST", some "Add project with image upload"⟩,
        ⟨"/api/add-creator", "POST", some "Add creator to database"⟩,
        ⟨"/api/add-technology", "POST", some "Add technology to database"⟩] }]

/-- `SERVICE_REGISTRY.find(s => s.name === serviceName && s.namespace === namespace)`. -/
def findRegistry (registry : List ServiceConfig) (serviceName ns : String) :
    Option ServiceConfig :=
  registry.find? fun s => s.name = serviceName && s.«namespace» = ns

/-! ## Kubernetes object models (the fields the handlers read) -/

/-- A Service port (`spec.ports[i]`). -/
structure K8sPort where
  port : Option Nat := none
  protocol : Option String := none
deriving Repr, DecidableEq

/-- How an annotation's string value behaves under `JSON.parse`:
it fails to parse, parses to an array (duck-typed by the code as a list
of endpoint objects), or parses to valid JSON that is not an array. -/
inductive AnnJson where
  | malformed
  | jsonArr (eps : List RegistryEndpoint)
  | jsonOther
deriving Repr, DecidableEq

/-- A Service object, restricted to the fields the handlers read.
Annotation values are modelled by their `JSON.parse` behaviour. -/
structure K8sService where
  name : Option String := none
  «namespace» : Option String := none
  labels : List (String × String) := []
  selector : List (String × String) := []
  ports : List K8sPort := []
  annotations : List (String × AnnJson) := []
deriving Repr, DecidableEq

/-- A Deployment's `status` subobject (`replicas` here is
`status.replicas`, the observed count). -/
structure DeploymentStatus where
  readyReplicas : Option Nat := none
  replicas : Option Nat := none
deriving Repr, DecidableEq

/-- A Deployment object, restricted to the fields `list_services`
reads. -/
structure K8sDeployment where
  name : Option String := none
  «namespace» : Option String := none
  labels : List (String × String) := []
  status : Option DeploymentStatus := none
deriving Repr, DecidableEq

/-- A Pod, restricted to the fields `get_service_health` reads:
`status.phase` and the `(type, status)` pairs of `status.conditions`. -/
structure K8sPod where
  phase : Option String := none
  conditions : List (String × String) := []
deriving Repr, DecidableEq

/-! ## Tool `list_services` (`src/tools/listServices.ts`) -/

/-- One normalized item of the `list_services` output. -/
structure ServiceItem where
  name : String
  «namespace» : String
  type : String
  status : String
  endpoints : List String
  ports : List (Nat × String)
  labels : List (String × String)
deriving Repr, DecidableEq

/-- The Service half of the `list_services` mapping. -/
def serviceToItem (defaultNs : String) (svc : K8sService) : ServiceItem :=
  let svcName := jsOrStr svc.name "unknown"
  let svcNamespace := jsOrStr svc.«namespace» defaultNs
  let mainPort := jsOrNat (svc.ports.head?.bind (·.port)) 8080
  { name := svcName
    «namespace» := svcNamespace
    type := "Service"
    status := "running"
    endpoints := ["http://" ++ svcName ++ "." ++ svcNamespace ++
                  ".svc.cluster.local:" ++ toString mainPort]
    ports := svc.ports.map fun p => ((p.port).getD 0, jsOrStr p.protocol "TCP")
    labels := svc.labels }

/-- The Deployment half of the `list_services` mapping.  The status
chain is evaluated in source order:
`readyReplicas === replicas ? "running" : replicas === 0 ? "stopped" : "pending"`
(both fields read from `deploy.status`, strict equality on possibly
absent values). -/
def deploymentToItem (defaultNs : String) (deploy : K8sDeployment) : ServiceItem :=
  { name := jsOrStr deploy.name "unknown"
    «namespace» := jsOrStr deploy.«namespace» defaultNs
    type := "Deployment"
    status :=
      if (deploy.status.bind (·.readyReplicas)) = (deploy.status.bind (·.replicas)) then
        "running"
      else if (deploy.status.bind (·.replicas)) = some 0 then "stopped"
      else "pending"
    endpoints := []
    ports := []
    labels := deploy.labels }

/-- `listServices` after successful namespace validation: map both
lists, concatenate, and filter by `serviceType` when it is a truthy
argument. -/
def listServicesItems (ns : String) (services : List K8sService)
    (deployments : List K8sDeployment) (serviceType : Option String) : List ServiceItem :=
  let serviceList := services.map (serviceToItem ns)
  let deploymentList := deployments.map (deploymentToItem ns)
  let allItems := serviceList ++ deploymentList
  match serviceType with
  | some t => if strIsEmpty t then allItems else allItems.filter fun item => item.type = t
  | none => allItems

/-! ## Discovery engine (`src/services/serviceDiscovery.ts`) -/

/-- A discovered endpoint parameter. -/
structure EndpointParam where
  name : String
  type : String
  required : Bool
  location : String
deriving Repr, DecidableEq

/-- `DiscoveredEndpoint`. -/
structure DiscoveredEndpoint where
  path : String
  method : String
  description : Option String := none
  parameters : Option (List EndpointParam) := none
  responseType : Option String := none
  authentication : Option String := none
deriving Repr, DecidableEq

/-- `ServiceDiscoveryResult`. -/
structure ServiceDiscoveryResult where
  serviceName : String
  baseUrl : String
  endpoints : List DiscoveredEndpoint
  discoveryMethod : String
  documentation : Option String := none
deriving Repr, DecidableEq

/-- `info` block of a Swagger document. -/
structure SwaggerInfo where
  title : Option String := none
  description : Option String := none
deriving Repr, DecidableEq

/-- One declared parameter of a Swagger operation (`schemaType` models
`param.schema?.type`, `type` models `param.type`, `inLocation` models
`param.in`). -/
structure SwaggerParam where
  name : String
  schemaType : Option String := none
  type : Option String := none
  required : Option Bool := none
  inLocation : Option String := none
deriving Repr, DecidableEq

/-- One response object of a Swagger operation: whether
`content["application/json"].schema` is present. -/
structure SwaggerResponseObj where
  hasJsonSchema : Bool := false
deriving Repr, DecidableEq

/-- The success responses the parser looks at (`200`, `201`, `204`). -/
structure SwaggerResponses where
  s200 : Option SwaggerResponseObj := none
  s201 : Option SwaggerResponseObj := none
  s204 : Option SwaggerResponseObj := none
deriving Repr, DecidableEq

/-- One Swagger operation.  `security` records how many security
requirements the operation lists (`none` = absent); only emptiness
matters to the code. -/
structure SwaggerOp where
  summary : Option String := none
  description : Option String := none
  parameters : Option (List SwaggerParam) := none
  responses : Option SwaggerResponses := none
  security : Option Nat := none
deriving Repr, DecidableEq

/-- A parsed Swagger/OpenAPI document (the JSON decoding of the HTTP
body is implicit in the model). -/
structure SwaggerSpec where
  info : Option SwaggerInfo := none
  paths : List (String × List (String × SwaggerOp)) := []
deriving Repr, DecidableEq

/-- `extractParameters`. -/
def extractParameters (params : Option (List SwaggerParam)) :
    Option (List EndpointParam) :=
  match params with
  | none => none
  | some ps => some (ps.map fun param =>
      { name := param.name
        type := jsOrStr param.schemaType (jsOrStr param.type "string")
        required := param.required.getD false
        location := jsOrStr param.inLocation "query" })

/-- `extractResponseType`. -/
def extractResponseType (responses : Option SwaggerResponses) : Option String :=
  match responses with
  | none => none
  | some rs =>
    match rs.s200 <|> rs.s201 <|> rs.s204 with
    | some r => if r.hasJsonSchema then some "application/json" else none
    | none => none

/-- `detectAuthentication`. -/
def detectAuthentication (security : Option Nat) : Option String :=
  match security with
  | none => some "none"
  | some 0 => some "none"
  | some _ => some "unknown"

/-- The HTTP verbs `parseSwaggerSpec` keeps. -/
def recognizedVerbs : List String :=
  ["get", "post", "put", "delete", "patch", "head", "options"]

/-- `parseSwaggerSpec`. -/
def parseSwaggerSpec (spec : SwaggerSpec) (baseUrl : String) :
    ServiceDiscoveryResult :=
  let endpoints := spec.paths.flatMap fun pm =>
    pm.2.filterMap fun md =>
      if recognizedVerbs.contains (strLower md.1) then
        some { path := pm.1
               method := strUpper md.1
               description := jsOrOptStr md.2.summary md.2.description
               parameters := extractParameters md.2.parameters
               responseType := extractResponseType md.2.responses
               authentication := detectAuthentication md.2.security }
      else none
  { serviceName := jsOrStr (spec.info.bind (·.title)) "unknown"
    baseUrl := baseUrl
    endpoints := endpoints
    discoveryMethod := "swagger"
    documentation := spec.info.bind (·.description) }

/-- One fetched well-known spec path, as the discovery engine's
`httpClient.get` sees it: `none` means the call threw; otherwise a
status code and an optional body (already JSON-decoded in the model). -/
structure SwaggerFetchResp where
  statusCode : Nat
  body : Option SwaggerSpec := none
deriving Repr, DecidableEq

/-- The effect environment of the discovery engine: the registry, what
`httpClient.get(url, {timeout: 3000})` yields per URL, and what
`k8sClient.getService` yields (`none` = the call threw). -/
structure DiscoveryEnv where
  registry : List ServiceConfig
  fetch : String → Option SwaggerFetchResp
  k8sService : Option K8sService

/-- The fixed ordered list of well-known spec paths. -/
def swaggerPaths : List String :=
  ["/swagger.json", "/swagger.yaml", "/api-docs", "/openapi.json",
   "/v3/api-docs", "/api/swagger.json"]

/-- The base URL both fallback stages compute:
`registryConfig?.baseUrl || http://<name>.<ns>.svc.cluster.local:<registryConfig?.port || 8080>`. -/
def discoveryBaseUrl (serviceName ns : String) (cfg : Option ServiceConfig) : String :=
  jsOrStr (cfg.map (·.baseUrl))
    ("http://" ++ serviceName ++ "." ++ ns ++ ".svc.cluster.local:" ++
     toString (jsOrNat (cfg.map (·.port)) 8080))

/-- The probe loop of `discoverFromSwagger`: first path whose fetch
returns status 200 with a body is parsed and returned; fetch errors,
other statuses and body-less responses move to the next path; exhaustion
throws. -/
def swaggerLoop (env : DiscoveryEnv) (baseUrl : String) :
    List String → Except String ServiceDiscoveryResult
  | [] => .error "Swagger/OpenAPI spec not found"
  | p :: rest =>
    match env.fetch (baseUrl ++ p) with
    | none => swaggerLoop env baseUrl rest
    | some response =>
      match response.body with
      | some body =>
        if response.statusCode = 200 then .ok (parseSwaggerSpec body baseUrl)
        else swaggerLoop env baseUrl rest
      | none => swaggerLoop env baseUrl rest

/-- `discoverFromSwagger`. -/
def discoverFromSwagger (env : DiscoveryEnv) (serviceName ns : String)
    (registryConfig : Option ServiceConfig) : Except String ServiceDiscoveryResult :=
  swaggerLoop env (discoveryBaseUrl serviceName ns registryConfig) swaggerPaths

/-- The two hardcoded default endpoints. -/
def defaultEndpoints : List DiscoveredEndpoint :=
  [{ path := "/health", method := "GET",
     description := some "Health check endpoint" },
   { path := "/api/health", method := "GET",
     description := some "API health check endpoint" }]

/-- The registry-endpoint → discovered-endpoint duck typing applied by
both the registry branch and the annotation branch (only `path`,
`method`, `description` carry over). -/
def RegistryEndpoint.toDiscovered (ep : RegistryEndpoint) : DiscoveredEndpoint :=
  { path := ep.path, method := ep.method, description := ep.description }

/-- `discoverFromKubernetes`: a readable `mcp.clusterflux.io/endpoints`
annotation with valid JSON is returned tagged `annotations` (non-array
JSON yields an empty list); a thrown `getService`, a missing annotation
or malformed JSON fall through to the hardcoded default result. -/
def discoverFromKubernetes (env : DiscoveryEnv) (serviceName ns : String)
    (registryConfig : Option ServiceConfig) : ServiceDiscoveryResult :=
  let baseUrl := discoveryBaseUrl serviceName ns registryConfig
  let viaAnnotations : Option ServiceDiscoveryResult :=
    match env.k8sService with
    | none => none
    | some service =>
      match service.annotations.lookup "mcp.clusterflux.io/endpoints" with
      | none => none
      | some .malformed => none
      | some (.jsonArr eps) =>
        some { serviceName, baseUrl, endpoints := eps.map (·.toDiscovered),
               discoveryMethod := "annotations" }
      | some .jsonOther =>
        some { serviceName, baseUrl, endpoints := [],
               discoveryMethod := "annotations" }
  match viaAnnotations with
  | some r => r
  | none =>
    { serviceName, baseUrl, endpoints := defaultEndpoints,
      discoveryMethod := "default" }

/-- `ServiceDiscovery.discoverEndpoints`: registry first (when its entry
has a non-empty endpoint list), then — for modes `auto` and `swagger` —
the swagger probe (kept only when it parsed to a non-empty endpoint
list), then the Kubernetes-annotation/default fallback.  Total: every
internal failure falls through. -/
def discoverEndpoints (env : DiscoveryEnv) (serviceName ns method : String) :
    ServiceDiscoveryResult :=
  let registryConfig := findRegistry env.registry serviceName ns
  let fallthrough : ServiceDiscoveryResult :=
    if method = "auto" || method = "swagger" then
      match discoverFromSwagger env serviceName ns registryConfig with
      | .ok swaggerEndpoints =>
        if swaggerEndpoints.endpoints.length > 0 then swaggerEndpoints
        else discoverFromKubernetes env serviceName ns registryConfig
      | .error _ => discoverFromKubernetes env serviceName ns registryConfig
    else discoverFromKubernetes env serviceName ns registryConfig
  match registryConfig with
  | some c =>
    match c.endpoints with
    | some eps =>
      if eps.length > 0 then
        { serviceName
          baseUrl := c.baseUrl
          endpoints := eps.map (·.toDiscovered)
          discoveryMethod := "registry" }
      else fallthrough
    | none => fallthrough
  | none => fallthrough

/-! ## Error sanitizer (`src/utils/errors.ts`) -/

/-- `sanitizeError` on an `Error`'s message: mask anything mentioning
`kubeconfig` or `secret`, pass the message through otherwise. -/
def sanitizeError (message : String) : String :=
  if charsInclude message.data "kubeconfig".data ||
     charsInclude message.data "secret".data then
    "Configuration error: Unable to access cluster resources"
  else message

/-! ## Tool `get_service_health` (`src/tools/getServiceHealth.ts`) -/

/-- Render a `JsVal` as the string it would show as in a JSON result
(used only for the raw `endpoint` echoed by the failed-probe branch). -/
def JsVal.display : JsVal → String
  | .prim p => p.toJsString
  | .obj _ => "[object Object]"
  | .arr elems => strJoin "," (elems.map JsPrim.toJsString)

/-- `Object.entries(selector).map(([k,v]) => k+"="+v).join(",")`. -/
def joinSelector (sel : List (String × String)) : String :=
  strJoin "," (sel.map fun kv => kv.1 ++ "=" ++ kv.2)

/-- The pod-readiness test:
`status.conditions.some(c => c.type === "Ready" && c.status === "True")`. -/
def podIsReady (p : K8sPod) : Bool :=
  p.conditions.any fun c => c.1 = "Ready" && c.2 = "True"

/-- The `checks.http` subobject. -/
structure HttpCheckResult where
  endpoint : String
  statusCode : Nat
  responseTime : Nat
  status : String
deriving Repr, DecidableEq

/-- The `get_service_health` success payload (flattened `checks`). -/
structure HealthResult where
  serviceName : String
  status : String
  podsRunning : Nat
  podsTotal : Nat
  k8sStatus : String
  http : HttpCheckResult
deriving Repr, DecidableEq

/-- The arguments of `get_service_health`, still untyped. -/
structure HealthArgs where
  serviceName : JsVal
  «namespace» : JsVal := JsVal.undefined
  checkEndpoint : JsVal := JsVal.undefined

/-- The effect environment of `get_service_health`: the registry, the
rate limiter's verdict, what `getService` yields (`.error` = it threw),
the pods a label-selector query returns, and the probe client. -/
structure HealthEnv where
  registry : List ServiceConfig
  rateLimitOk : Bool
  getService : Except String K8sService
  listPods : String → List K8sPod
  probe : String → Except HttpErr ProcessedResp

/-- The Kubernetes-level check:
`runningPods.length > 0 ? "ok" : pods.length === 0 ? "down" : "degraded"`. -/
def computeK8sStatus (runningCount totalCount : Nat) : String :=
  if runningCount > 0 then "ok"
  else if totalCount = 0 then "down"
  else "degraded"

/-- The `try`/`catch` around the HTTP health check: validate the
endpoint, probe `baseUrl + endpoint` and classify its status code; any
throw inside — endpoint validation or the probe — is captured as
`statusCode=0, responseTime=0, status="error"`. -/
def computeHttpCheck (probe : String → Except HttpErr ProcessedResp)
    (baseUrl : String) (healthEndpoint : JsVal) : HttpCheckResult :=
  match validateEndpoint healthEndpoint with
  | .ok validatedEndpoint =>
    match probe (baseUrl ++ validatedEndpoint) with
    | .ok response =>
      { endpoint := validatedEndpoint
        statusCode := response.statusCode
        responseTime := response.responseTime
        status :=
          if 200 ≤ response.statusCode && response.statusCode < 400 then "ok"
          else "error" }
    | .error _ =>
      { endpoint := healthEndpoint.display, statusCode := 0,
        responseTime := 0, status := "error" }
  | .error _ =>
    { endpoint := healthEndpoint.display, statusCode := 0,
      responseTime := 0, status := "error" }

/-- The overall verdict:
`k8sStatus === "ok" && httpCheck.status === "ok" ? "healthy" : "unhealthy"`
(the source's middle `k8sStatus === "down"` branch also yields
`"unhealthy"`, so the chain collapses to this conditional;
`httpCheck` is always assigned, so the source's `!httpCheck` disjunct is
vacuous). -/
def computeOverall (k8sStatus : String) (httpCheck : HttpCheckResult) : String :=
  if k8sStatus = "ok" && httpCheck.status = "ok" then "healthy"
  else "unhealthy"

/-- `getServiceHealth`.  Everything thrown before the `try` around the
HTTP check — validation, rate limiting, `getService` — escapes to the
boundary catch (`.error` here, after `sanitizeError`); a failed HTTP
check is captured in-place as `statusCode=0, status="error"`.  The
overall status is `"healthy"` exactly when the Kubernetes check is
`"ok"` and the HTTP check is `"ok"`, and `"unhealthy"` otherwise. -/
def getServiceHealth (env : HealthEnv) (args : HealthArgs) :
    Except String HealthResult :=
  match validateServiceName args.serviceName with
  | .error e => .error (sanitizeError e)
  | .ok serviceName =>
  match validateNamespace args.«namespace» with
  | .error e => .error (sanitizeError e)
  | .ok ns =>
  if !env.rateLimitOk then .error (sanitizeError "Rate limit exceeded")
  else
  match env.getService with
  | .error e => .error (sanitizeError e)
  | .ok service =>
    let pods :=
      if service.selector.isEmpty then []
      else env.listPods (joinSelector service.selector)
    let runningPods := pods.filter fun p =>
      p.phase = some "Running" && podIsReady p
    let k8sStatus := computeK8sStatus runningPods.length pods.length
    let registryConfig := findRegistry env.registry serviceName ns
    let mainPort := jsOrNat (service.ports.head?.bind (·.port)) 8080
    let baseUrl := jsOrStr (registryConfig.map (·.baseUrl))
      ("http://" ++ serviceName ++ "." ++ ns ++ ".svc.cluster.local:" ++
       toString mainPort)
    let healthEndpoint : JsVal :=
      if args.checkEndpoint.truthy then args.checkEndpoint
      else .str (jsOrStr (registryConfig.bind (·.healthEndpoint)) "/health")
    let httpCheck := computeHttpCheck env.probe baseUrl healthEndpoint
    .ok { serviceName, status := computeOverall k8sStatus httpCheck,
          podsRunning := runningPods.length, podsTotal := pods.length,
          k8sStatus, http := httpCheck }

/-! ## Tool `test_endpoint` (two variants in the tree)

The first variant passes every candidate URL — the initial one and each
alternate-port one — through `validateUrl` before probing; the second
builds URLs with `new URL(endpoint, base)` and never consults the
Guard.  Both are embedded; each returns, besides the result envelope,
the ordered list of URL strings actually handed to the HTTP client. -/

/-- The arguments of `test_endpoint`, still untyped. -/
structure TestArgs where
  serviceName : JsVal
  endpoint : JsVal
  method : JsVal := JsVal.undefined
  «namespace» : JsVal := JsVal.undefined
  queryParams : JsVal := JsVal.undefined
  headers : JsVal := JsVal.undefined
  timeout : JsVal := JsVal.undefined

/-- The effect environment of `test_endpoint`. -/
structure ProbeEnv where
  registry : List ServiceConfig
  rateLimitOk : Bool
  probe : String → Except HttpErr ProcessedResp

/-- The success payload of `test_endpoint`. -/
structure TestSuccess where
  success : Bool
  statusCode : Nat
  headers : List (String × String)
  body : Option String
  responseTime : Nat
deriving Repr, DecidableEq

/-- The result envelope: a success payload or the sanitized error of the
boundary catch.  -/
inductive TestReturn where
  | ok (r : TestSuccess)
  | err (message : String)
deriving Repr, DecidableEq

/-- A `test_endpoint` outcome: the envelope plus the ordered URL strings
given to the HTTP client. -/
structure TestOutcome where
  ret : TestReturn
  probes : List String
deriving Repr, DecidableEq

/-- Build the success payload from a probe response
(`success` = status in `[200, 400)`). -/
def mkTestSuccess (response : ProcessedResp) : TestSuccess :=
  { success := 200 ≤ response.statusCode && response.statusCode < 400
    statusCode := response.statusCode
    headers := response.headers
    body := response.body
    responseTime := response.responseTime }

/-- The constructed cluster-internal base URL
`http://<serviceName>.<ns>.svc.cluster.local:<port>`. -/
def clusterBase (serviceName ns : String) (port : Nat) : String :=
  "http://" ++ serviceName ++ "." ++ ns ++ ".svc.cluster.local:" ++ toString port

/-- The alternate-port list computed from the registry entry:
`registryConfig?.port ? [registryConfig.port] : [8080, 3000, 3001]`. -/
def testPorts (registryConfig : Option ServiceConfig) : List Nat :=
  match registryConfig with
  | some c => if c.port ≠ 0 then [c.port] else [8080, 3000, 3001]
  | none => [8080, 3000, 3001]

/-- The fallback loop of the Guard-applying `test_endpoint` variant: for
each remaining port build the alternate URL, validate it (a Guard
failure is swallowed and the loop continues), probe it, return the first
response; exhaustion rethrows the original error to the boundary. -/
def fallbackLoopGuarded (env : ProbeEnv) (serviceName ns endpoint : String)
    (queryParams : List (String × String)) (origMessage : String)
    (log : List String) : List Nat → TestOutcome
  | [] => ⟨.err (sanitizeError origMessage), log⟩
  | port :: rest =>
    let altBaseUrl := clusterBase serviceName ns port
    let altFullUrl := altBaseUrl ++ endpoint
    match validateUrl altFullUrl (some altBaseUrl) with
    | .error _ =>
      fallbackLoopGuarded env serviceName ns endpoint queryParams origMessage log rest
    | .ok altUrl =>
      let altUrl := appendQueryParams altUrl queryParams
      match env.probe altUrl.href with
      | .ok response => ⟨.ok (mkTestSuccess response), log ++ [altUrl.href]⟩
      | .error _ =>
        fallbackLoopGuarded env serviceName ns endpoint queryParams origMessage
          (log ++ [altUrl.href]) rest

/-- The Guard-applying `test_endpoint` variant
(`validateUrl` on the initial URL and inside the fallback loop). -/
def testEndpointGuarded (env : ProbeEnv) (args : TestArgs) : TestOutcome :=
  match validateServiceName args.serviceName with
  | .error e => ⟨.err (sanitizeError e), []⟩
  | .ok serviceName =>
  match validateEndpoint args.endpoint with
  | .error e => ⟨.err (sanitizeError e), []⟩
  | .ok endpoint =>
  match validateHttpMethod (if args.method.truthy then args.method else .str "GET") with
  | .error e => ⟨.err (sanitizeError e), []⟩
  | .ok method =>
  match validateNamespace args.«namespace» with
  | .error e => ⟨.err (sanitizeError e), []⟩
  | .ok ns =>
  match validateQueryParams args.queryParams with
  | .error e => ⟨.err (sanitizeError e), []⟩
  | .ok queryParams =>
  match validateHeaders args.headers with
  | .error e => ⟨.err (sanitizeError e), []⟩
  | .ok _headers =>
  match validateTimeout args.timeout with
  | .error e => ⟨.err (sanitizeError e), []⟩
  | .ok _timeout =>
  if !env.rateLimitOk then ⟨.err (sanitizeError "Rate limit exceeded"), []⟩
  else
    let registryConfig := findRegistry env.registry serviceName ns
    let ports := testPorts registryConfig
    let baseUrl := jsOrStr (registryConfig.map (·.baseUrl))
      (clusterBase serviceName ns (ports.headD 8080))
    let fullUrl := baseUrl ++ endpoint
    match validateUrl fullUrl (some baseUrl) with
    | .error e => ⟨.err (sanitizeError e), []⟩
    | .ok url =>
      let url := appendQueryParams url queryParams
      match env.probe url.href with
      | .ok response => ⟨.ok (mkTestSuccess response), [url.href]⟩
      | .error error =>
        if method = "GET" && registryConfig.isNone && ports.length > 1 then
          fallbackLoopGuarded env serviceName ns endpoint queryParams
            error.message [url.href] (ports.drop 1)
        else ⟨.err (sanitizeError error.message), [url.href]⟩

/-- The fallback loop of the no-Guard `test_endpoint` variant: alternate
URLs are built with `new URL(endpoint, altBaseUrl)` and probed without
any Guard check. -/
def fallbackLoopUnguarded (env : ProbeEnv) (serviceName ns endpoint : String)
    (queryParams : List (String × String)) (origMessage : String)
    (log : List String) : List Nat → TestOutcome
  | [] => ⟨.err (sanitizeError origMessage), log⟩
  | port :: rest =>
    let altBaseUrl := clusterBase serviceName ns port
    match parseUrlWith endpoint (some altBaseUrl) with
    | none =>
      fallbackLoopUnguarded env serviceName ns endpoint queryParams origMessage log rest
    | some altUrl =>
      let altUrl := appendQueryParams altUrl queryParams
      match env.probe altUrl.href with
      | .ok response => ⟨.ok (mkTestSuccess response), log ++ [altUrl.href]⟩
      | .error _ =>
        fallbackLoopUnguarded env serviceName ns endpoint queryParams origMessage
          (log ++ [altUrl.href]) rest

/-- The no-Guard `test_endpoint` variant
(`new URL(endpoint, baseUrl)`, no `validateUrl` anywhere). -/
def testEndpointUnguarded (env : ProbeEnv) (args : TestArgs) : TestOutcome :=
  match validateServiceName args.serviceName with
  | .error e => ⟨.err (sanitizeError e), []⟩
  | .ok serviceName =>
  match validateEndpoint args.endpoint with
  | .error e => ⟨.err (sanitizeError e), []⟩
  | .ok endpoint =>
  match validateHttpMethod (if args.method.truthy then args.method else .str "GET") with
  | .error e => ⟨.err (sanitizeError e), []⟩
  | .ok method =>
  match validateNamespace args.«namespace» with
  | .error e => ⟨.err (sanitizeError e), []⟩
  | .ok ns =>
  match validateQueryParams args.queryParams with
  | .error e => ⟨.err (sanitizeError e), []⟩
  | .ok queryParams =>
  match validateHeaders args.headers with
  | .error e => ⟨.err (sanitizeError e), []⟩
  | .ok _headers =>
  match validateTimeout args.timeout with
  | .error e => ⟨.err (sanitizeError e), []⟩
  | .ok _timeout =>
  if !env.rateLimitOk then ⟨.err (sanitizeError "Rate limit exceeded"), []⟩
  else
    let registryConfig := findRegistry env.registry serviceName ns
    let ports := testPorts registryConfig
    let baseUrl := jsOrStr (registryConfig.map (·.baseUrl))
      (clusterBase serviceName ns (ports.headD 8080))
    match parseUrlWith endpoint (some baseUrl) with
    | none => ⟨.err (sanitizeError "Invalid URL"), []⟩
    | some url =>
      let url := appendQueryParams url queryParams
      match env.probe url.href with
      | .ok response => ⟨.ok (mkTestSuccess response), [url.href]⟩
      | .error error =>
        if method = "GET" && registryConfig.isNone && ports.length > 1 then
          fallbackLoopUnguarded env serviceName ns endpoint queryParams
            error.message [url.href] (ports.drop 1)
        else ⟨.err (sanitizeError error.message), [url.href]⟩

/-! ## Concrete fixtures used by witness and counterexample theorems -/

/-- An environment whose every probe yields HTTP 200, with the shipped
registry; used to exercise the no-Guard `test_endpoint` variant. -/
def c1Env : ProbeEnv :=
  { registry := SERVICE_REGISTRY
    rateLimitOk := true
    probe := fun _ =>
      .ok { statusCode := 200, headers := [], body := none, responseTime := 1 } }

/-- `test_endpoint` arguments naming a namespace (`testns`) outside the
URL Guard's allow-list. -/
def c1Args : TestArgs :=
  { serviceName := JsVal.str "homepage"
    endpoint := JsVal.str "/health"
    «namespace» := JsVal.str "testns" }

/-- A discovery environment in which every source fails: empty registry,
every fetch throws, `getService` throws. -/
def emptyDiscoveryEnv : DiscoveryEnv :=
  { registry := [], fetch := fun _ => none, k8sService := none }

/-- A discovery environment in which a live swagger endpoint would
resolve (every fetch returns a 200 spec with one operation) and the
annotation source would answer as well — used to show the registry still
wins. -/
def liveSwaggerEnv : DiscoveryEnv :=
  { registry := SERVICE_REGISTRY
    fetch := fun _ =>
      some { statusCode := 200
             body := some { paths := [("/live", [("get", {})])] } }
    k8sService := some
      { annotations := [("mcp.clusterflux.io/endpoints",
          .jsonArr [⟨"/from-annotation", "GET", none⟩])] } }

/-- A probe environment for an unregistered service whose port 8080
refuses the connection but whose port 3000 answers 200. -/
def fbEnv : ProbeEnv :=
  { registry := SERVICE_REGISTRY
    rateLimitOk := true
    probe := fun u =>
      if u = "http://homepage2.default.svc.cluster.local:3000/health" then
        .ok { statusCode := 200, headers := [], body := some "ok", responseTime := 5 }
      else .error { message := "Connection refused - service may be down" } }

/-- `test_endpoint` arguments for the fallback scenario. -/
def fbArgs : TestArgs :=
  { serviceName := JsVal.str "homepage2", endpoint := JsVal.str "/health" }

/-- A probe environment recording nothing special; the POST test never
reaches it. -/
def c7Env : ProbeEnv :=
  { registry := SERVICE_REGISTRY
    rateLimitOk := true
    probe := fun _ =>
      .ok { statusCode := 200, headers := [], body := none, responseTime := 1 } }

/-- `test_endpoint` arguments with method POST. -/
def c7Args : TestArgs :=
  { serviceName := JsVal.str "homepage"
    endpoint := JsVal.str "/health"
    method := JsVal.str "POST" }

/-- A health environment whose HTTP probe always times out, over a
service with one running, ready pod. -/
def timeoutHealthEnv : HealthEnv :=
  { registry := SERVICE_REGISTRY
    rateLimitOk := true
    getService := .ok
      { selector := [("app", "web")]
        ports := [{ port := some 8080 }] }
    listPods := fun _ => [{ phase := some "Running", conditions := [("Ready", "True")] }]
    probe := fun _ => .error { message := "Request timeout" } }

/-- `get_service_health` arguments for the timeout scenario. -/
def timeoutHealthArgs : HealthArgs :=
  { serviceName := JsVal.str "web" }

/-! # Claim theorems -/

/-- C1 evaluation: at a concrete `test_endpoint` call with namespace
`testns`, the no-Guard variant hands the HTTP client the URL
`http://homepage.testns.svc.cluster.local:8080/health` — which
`validateUrl` rejects — and returns that probe's response, while the
Guard-applying variant issues no probe at all on the same input.  This
refutes the claim that every URL probed by every `test_endpoint` path
satisfies the URL Guard. -/
theorem C1_unguarded_variant_bypasses_url_guard :
    (testEndpointUnguarded c1Env c1Args).probes =
      ["http://homepage.testns.svc.cluster.local:8080/health"] ∧
    (validateUrl "http://homepage.testns.svc.cluster.local:8080/health" none).isOk = false ∧
    (testEndpointUnguarded c1Env c1Args).ret =
      .ok (mkTestSuccess { statusCode := 200, headers := [], body := none, responseTime := 1 }) ∧
    (testEndpointGuarded c1Env c1Args).probes = [] := by
  refine ⟨by decide, by decide, by decide, by decide⟩

/-- C2: `validateUrl(candidate, base?)` succeeds exactly when the
candidate parses as a URL with an http/https scheme, a hostname of the
form `<dns-label>.<ns>.svc.cluster.local` for `ns` in
{default, kube-system, monitoring}, and an explicit port (if any) in
{80, 443, 8080, 3000, 3001, 9090}; every other input fails.  Stated as
an equivalence with the spec-worded predicate `urlGuardSpec`, together
with the spec's three concrete examples. -/
theorem C2_validateUrl_accepts_exactly_guard_spec :
    (∀ url base, (validateUrl url base).isOk = urlGuardSpec url base) ∧
    (validateUrl "http://evil.com" none).isOk = false ∧
    (validateUrl "http://homepage.default.svc.cluster.local:8080/x" none).isOk = true ∧
    (validateUrl "http://homepage.default.svc.cluster.local:9999/x" none).isOk = false := by
  refine ⟨?_, by decide, by decide, by decide⟩
  intro url base
  unfold validateUrl urlGuardSpec hostAllowed
  cases parseUrlWith url base with
  | none => rfl
  | some u =>
    by_cases h1 : u.scheme = "http" <;> by_cases h2 : u.scheme = "https" <;>
      cases hh : allowedNamespaces.any (fun ns => matchesNsPattern ns (strLower u.hostname)) <;>
        (cases hp : u.port with
         | none => simp [h1, h2, hh, hp, Except.isOk, Except.toBool]
         | some port =>
            by_cases hc : port ∈ ALLOWED_PORTS <;>
              simp [h1, h2, hh, hp, hc, Except.isOk, Except.toBool])

/-- C5: the rate limiter follows fixed-window semantics — a fresh window
(`count=1`, `resetTime=now+windowMs`) on first use of the key or once
`now > resetTime`; otherwise rejection exactly when
`count >= maxRequests` before incrementing, and an increment when below
the cap.  With `windowMs=1000, maxRequests=2`, three checks of `"k"`
inside one window go allow/allow/deny and a fourth after the window
elapses is allowed again. -/
theorem C5_rateLimiter_fixed_window :
    (∀ (rl : RateLimiter) (key : String) (now : Nat),
        rl.requests.lookup key = none →
        rl.check key now =
          ({ rl with requests := mapSet rl.requests key ⟨1, now + rl.windowMs⟩ }, true)) ∧
    (∀ (rl : RateLimiter) (key : String) (now : Nat) (e : RateLimitEntry),
        rl.requests.lookup key = some e → now > e.resetTime →
        rl.check key now =
          ({ rl with requests := mapSet rl.requests key ⟨1, now + rl.windowMs⟩ }, true)) ∧
    (∀ (rl : RateLimiter) (key : String) (now : Nat) (e : RateLimitEntry),
        rl.requests.lookup key = some e → ¬ now > e.resetTime →
        (((rl.check key now).2 = false ↔ e.count ≥ rl.maxRequests) ∧
         (e.count < rl.maxRequests →
           rl.check key now =
             ({ rl with requests := mapSet rl.requests key ⟨e.count + 1, e.resetTime⟩ }, true)))) ∧
    ((({ windowMs := 1000, maxRequests := 2, requests := [] } : RateLimiter).check "k" 0).2 = true ∧
     (((({ windowMs := 1000, maxRequests := 2, requests := [] } : RateLimiter).check "k" 0).1.check "k" 1).2 = true) ∧
     ((((({ windowMs := 1000, maxRequests := 2, requests := [] } : RateLimiter).check "k" 0).1.check "k" 1).1.check "k" 2).2 = false) ∧
     (((((({ windowMs := 1000, maxRequests := 2, requests := [] } : RateLimiter).check "k" 0).1.check "k" 1).1.check "k" 2).1.check "k" 1001).2 = true)) := by
  refine ⟨?_, ?_, ?_, by decide, by decide, by decide, by decide⟩
  · intro rl key now h
    simp [RateLimiter.check, h]
  · intro rl key now e h hgt
    simp [RateLimiter.check, h, hgt]
  · intro rl key now e h hle
    constructor
    · by_cases hc : e.count ≥ rl.maxRequests <;> simp [RateLimiter.check, h, hle, hc]
    · intro hlt
      have hc : ¬ e.count ≥ rl.maxRequests := Nat.not_le.mpr hlt
      simp [RateLimiter.check, h, hle, hc]

/-- C5 witness: first use of key `"k"` at `now = 5` on an empty limiter
with `windowMs=1000, maxRequests=2` opens the window
`count=1, resetTime=1005` and is allowed. -/
theorem C5_rateLimiter_fixed_window_witness :
    ((([] : List (String × RateLimitEntry)).lookup "k") = none) ∧
    (({ windowMs := 1000, maxRequests := 2, requests := [] } : RateLimiter).check "k" 5 =
      ({ windowMs := 1000, maxRequests := 2,
         requests := [("k", ⟨1, 1005⟩)] }, true)) :=
  ⟨by decide,
   C5_rateLimiter_fixed_window.1
     { windowMs := 1000, maxRequests := 2, requests := [] } "k" 5 (by decide)⟩

/-- C8: in `list_services`, every deployment item's derived status is
`"running"` when the ready replica count equals the (status-reported)
replica count, else `"stopped"` when that count is 0, else `"pending"`;
and the output is exactly the mapped services followed by the mapped
deployments. -/
theorem C8_deployment_status_derivation :
    (∀ (ns : String) (services : List K8sService) (deployments : List K8sDeployment),
        listServicesItems ns services deployments none =
          services.map (serviceToItem ns) ++ deployments.map (deploymentToItem ns)) ∧
    (∀ (ns : String) (d : K8sDeployment) (ready desired : Nat),
        d.status = some ⟨some ready, some desired⟩ →
        ((ready = desired → (deploymentToItem ns d).status = "running") ∧
         (ready ≠ desired → desired = 0 → (deploymentToItem ns d).status = "stopped") ∧
         (ready ≠ desired → desired ≠ 0 → (deploymentToItem ns d).status = "pending"))) := by
  constructor
  · intro ns services deployments
    rfl
  · intro ns d ready desired h
    refine ⟨fun he => ?_, fun hne h0 => ?_, fun hne h0 => ?_⟩
    · simp [deploymentToItem, h, he]
    · subst h0
      simp [deploymentToItem, h, hne]
    · simp [deploymentToItem, h, hne, h0]

/-- C8 witness: a deployment with 1 of 3 replicas ready is `"pending"`. -/
theorem C8_deployment_status_derivation_witness :
    ({ name := some "api", status := some ⟨some 1, some 3⟩ } : K8sDeployment).status =
      some ⟨some 1, some 3⟩ ∧
    (deploymentToItem "default"
      { name := some "api", status := some ⟨some 1, some 3⟩ }).status = "pending" :=
  ⟨rfl,
   (C8_deployment_status_derivation.2 "default"
      { name := some "api", status := some ⟨some 1, some 3⟩ } 1 3 rfl).2.2
     (by decide) (by decide)⟩

/-- C3: `discoverEndpoints` is total by construction (it is a plain
function into `ServiceDiscoveryResult`), and whenever the registry entry
is absent or unpopulated, the swagger stage fails or parses to an empty
endpoint list, and the annotation stage throws, lacks the annotation or
holds invalid JSON, the result — for every mode — is the hardcoded
default: exactly `GET /health` and `GET /api/health`, tagged
`discoveryMethod="default"`. -/
theorem C3_discovery_degrades_to_default :
    ∀ (env : DiscoveryEnv) (serviceName ns mode : String),
      (∀ cfg, findRegistry env.registry serviceName ns = some cfg →
         cfg.endpoints = none ∨ cfg.endpoints = some []) →
      (∀ r, discoverFromSwagger env serviceName ns
              (findRegistry env.registry serviceName ns) = .ok r →
         r.endpoints = []) →
      (∀ svc, env.k8sService = some svc →
         svc.annotations.lookup "mcp.clusterflux.io/endpoints" = none ∨
         svc.annotations.lookup "mcp.clusterflux.io/endpoints" = some AnnJson.malformed) →
      discoverEndpoints env serviceName ns mode =
        { serviceName
          baseUrl := discoveryBaseUrl serviceName ns (findRegistry env.registry serviceName ns)
          endpoints :=
            [{ path := "/health", method := "GET",
               description := some "Health check endpoint" },
             { path := "/api/health", method := "GET",
               description := some "API health check endpoint" }]
          discoveryMethod := "default" } := by
  intro env serviceName ns mode hreg hsw hann
  have hk : ∀ cfg, discoverFromKubernetes env serviceName ns cfg =
      { serviceName
        baseUrl := discoveryBaseUrl serviceName ns cfg
        endpoints :=
          [{ path := "/health", method := "GET",
             description := some "Health check endpoint" },
           { path := "/api/health", method := "GET",
             description := some "API health check endpoint" }]
        discoveryMethod := "default" } := by
    intro cfg
    unfold discoverFromKubernetes
    cases hsvc : env.k8sService with
    | none => rfl
    | some svc =>
      rcases hann svc hsvc with h | h <;> simp [h, defaultEndpoints]
  unfold discoverEndpoints
  cases hf : findRegistry env.registry serviceName ns with
  | none =>
    rw [hf] at hsw
    simp only [hf]
    by_cases hma : mode = "auto" <;> by_cases hms : mode = "swagger" <;>
      simp only [hma, hms] <;>
      (cases hdsw : discoverFromSwagger env serviceName ns none with
       | ok r => simp [hdsw, hsw r hdsw, hk]
       | error e => simp [hdsw, hk])
  | some c =>
    rw [hf] at hsw
    rcases hreg c hf with h | h <;>
      (simp only [hf, h]
       by_cases hma : mode = "auto" <;> by_cases hms : mode = "swagger" <;>
         simp only [hma, hms] <;>
         (cases hdsw : discoverFromSwagger env serviceName ns (some c) with
          | ok r => simp [hdsw, hsw r hdsw, hk]
          | error e => simp [hdsw, hk]))

/-- C3 witness: with an empty registry, all fetches throwing and
`getService` throwing, discovery of `svc-x` in `default` under mode
`auto` yields the two-entry default result. -/
theorem C3_discovery_degrades_to_default_witness :
    discoverEndpoints emptyDiscoveryEnv "svc-x" "default" "auto" =
      { serviceName := "svc-x"
        baseUrl := "http://svc-x.default.svc.cluster.local:8080"
        endpoints :=
          [{ path := "/health", method := "GET",
             description := some "Health check endpoint" },
           { path := "/api/health", method := "GET",
             description := some "API health check endpoint" }]
        discoveryMethod := "default" } :=
  C3_discovery_degrades_to_default emptyDiscoveryEnv "svc-x" "default" "auto"
    (fun _ h => nomatch h) (fun _ h => nomatch h) (fun _ h => nomatch h)

/-- C4: whenever the registry holds an entry for `(serviceName, ns)`
with a non-empty endpoint list, `discoverEndpoints` returns exactly that
entry's endpoints and `baseUrl` tagged `discoveryMethod="registry"`, for
every mode and every environment — in particular independently of what
the swagger and annotation sources would answer, so no other source is
consulted and nothing is merged. -/
theorem C4_registry_always_wins :
    ∀ (env : DiscoveryEnv) (serviceName ns mode : String)
      (cfg : ServiceConfig) (eps : List RegistryEndpoint),
      findRegistry env.registry serviceName ns = some cfg →
      cfg.endpoints = some eps →
      eps ≠ [] →
      discoverEndpoints env serviceName ns mode =
        { serviceName
          baseUrl := cfg.baseUrl
          endpoints := eps.map (·.toDiscovered)
          discoveryMethod := "registry" } := by
  intro env serviceName ns mode cfg eps hf he hne
  have hlen : eps.length > 0 := List.length_pos.mpr hne
  simp [discoverEndpoints, hf, he, hlen]

/-- C4 witness: `homepage` in `default` is registered with seven
endpoints; discovery in mode `auto` against an environment whose swagger
and annotation sources would both resolve still returns the registry
data. -/
theorem C4_registry_always_wins_witness :
    findRegistry liveSwaggerEnv.registry "homepage" "default" =
      some (SERVICE_REGISTRY.headD
        { name := "", «namespace» := "", port := 0, baseUrl := "" }) ∧
    discoverEndpoints liveSwaggerEnv "homepage" "default" "auto" =
      { serviceName := "homepage"
        baseUrl := "http://homepage.default.svc.cluster.local:8080"
        endpoints :=
          [⟨"/", "GET", some "Main homepage", none, none, none⟩,
           ⟨"/about.html", "GET", some "About page", none, none, none⟩,
           ⟨"/api/fetch-data", "GET", some "Fetch and save homepage data from MongoDB", none, none, none⟩,
           ⟨"/api/cluster-metrics", "GET", some "Get cluster metrics", none, none, none⟩,
           ⟨"/api/add-project", "POST", some "Add project with image upload", none, none, none⟩,
           ⟨"/api/add-creator", "POST", some "Add creator to database", none, none, none⟩,
           ⟨"/api/add-technology", "POST", some "Add technology to database", none, none, none⟩]
        discoveryMethod := "registry" } :=
  ⟨rfl,
   C4_registry_always_wins liveSwaggerEnv "homepage" "default" "auto"
     (SERVICE_REGISTRY.headD
       { name := "", «namespace» := "", port := 0, baseUrl := "" })
     ((SERVICE_REGISTRY.headD
       { name := "", «namespace» := "", port := 0, baseUrl := "" }).endpoints.getD [])
     rfl rfl (by decide)⟩

/-- Appending no query parameters leaves a URL unchanged. -/
theorem appendQueryParams_nil (u : UrlModel) : appendQueryParams u [] = u := by
  cases u
  simp [appendQueryParams]

/-- C6: the `test_endpoint` fallback (Guard-applying variant).  For a
GET to an unregistered service: (a) when port 8080's probe throws and
port 3000 answers, exactly the 8080 and 3000 URLs are probed, in that
order, and the 3000 response is returned — port 3001 is never tried;
(b) when 8080 and 3000 both throw and 3001 answers, the three URLs are
probed in order 8080, 3000, 3001 and the 3001 response is returned;
(c) a validated non-GET method gets exactly the one initial probe; and
(d) a service with a registry entry never gets more than one probe. -/
theorem C6_get_fallback_ports :
    (∀ (env : ProbeEnv) (args : TestArgs) (serviceName ns endpoint : String)
       (url0 url1 : UrlModel) (e0 : HttpErr) (r1 : ProcessedResp),
       validateServiceName args.serviceName = .ok serviceName →
       validateEndpoint args.endpoint = .ok endpoint →
       args.method = JsVal.undefined →
       validateNamespace args.«namespace» = .ok ns →
       args.queryParams = JsVal.undefined →
       args.headers = JsVal.undefined →
       args.timeout = JsVal.undefined →
       env.rateLimitOk = true →
       findRegistry env.registry serviceName ns = none →
       validateUrl (clusterBase serviceName ns 8080 ++ endpoint)
         (some (clusterBase serviceName ns 8080)) = .ok url0 →
       env.probe url0.href = .error e0 →
       validateUrl (clusterBase serviceName ns 3000 ++ endpoint)
         (some (clusterBase serviceName ns 3000)) = .ok url1 →
       env.probe url1.href = .ok r1 →
       testEndpointGuarded env args =
         ⟨.ok (mkTestSuccess r1), [url0.href, url1.href]⟩) ∧
    (∀ (env : ProbeEnv) (args : TestArgs) (serviceName ns endpoint : String)
       (url0 url1 url2 : UrlModel) (e0 e1 : HttpErr) (r2 : ProcessedResp),
       validateServiceName args.serviceName = .ok serviceName →
       validateEndpoint args.endpoint = .ok endpoint →
       args.method = JsVal.undefined →
       validateNamespace args.«namespace» = .ok ns →
       args.queryParams = JsVal.undefined →
       args.headers = JsVal.undefined →
       args.timeout = JsVal.undefined →
       env.rateLimitOk = true →
       findRegistry env.registry serviceName ns = none →
       validateUrl (clusterBase serviceName ns 8080 ++ endpoint)
         (some (clusterBase serviceName ns 8080)) = .ok url0 →
       env.probe url0.href = .error e0 →
       validateUrl (clusterBase serviceName ns 3000 ++ endpoint)
         (some (clusterBase serviceName ns 3000)) = .ok url1 →
       env.probe url1.href = .error e1 →
       validateUrl (clusterBase serviceName ns 3001 ++ endpoint)
         (some (clusterBase serviceName ns 3001)) = .ok url2 →
       env.probe url2.href = .ok r2 →
       testEndpointGuarded env args =
         ⟨.ok (mkTestSuccess r2), [url0.href, url1.href, url2.href]⟩) ∧
    (∀ (env : ProbeEnv) (args : TestArgs) (serviceName ns endpoint m : String)
       (url0 : UrlModel),
       validateServiceName args.serviceName = .ok serviceName →
       validateEndpoint args.endpoint = .ok endpoint →
       validateHttpMethod (if args.method.truthy then args.method else .str "GET") = .ok m →
       m ≠ "GET" →
       validateNamespace args.«namespace» = .ok ns →
       args.queryParams = JsVal.undefined →
       args.headers = JsVal.undefined →
       args.timeout = JsVal.undefined →
       env.rateLimitOk = true →
       findRegistry env.registry serviceName ns = none →
       validateUrl (clusterBase serviceName ns 8080 ++ endpoint)
         (some (clusterBase serviceName ns 8080)) = .ok url0 →
       (testEndpointGuarded env args).probes = [url0.href]) ∧
    (∀ (env : ProbeEnv) (args : TestArgs) (serviceName ns : String)
       (cfg : ServiceConfig),
       validateServiceName args.serviceName = .ok serviceName →
       validateNamespace args.«namespace» = .ok ns →
       findRegistry env.registry serviceName ns = some cfg →
       (testEndpointGuarded env args).probes.length ≤ 1) := by
  refine ⟨?_, ?_, ?_, ?_⟩
  · intro env args serviceName ns endpoint url0 url1 e0 r1
    intro hsn hep hm hns hqp hhd hto hrl hreg hv0 hp0 hv1 hp1
    unfold testEndpointGuarded
    rw [hsn, hep, hm, hns, hqp, hhd, hto, hrl]
    simp only [JsVal.undefined, JsVal.truthy, validateQueryParams, validateHeaders,
      validateTimeout, Bool.not_true, Bool.false_eq_true, if_false, hreg]
    have hmeth : validateHttpMethod (JsVal.str "GET") = .ok "GET" := rfl
    rw [hmeth]
    simp only [testPorts, List.headD, Option.map_none', jsOrStr]
    simp only [hv0, appendQueryParams_nil, hp0]
    simp only [List.drop, Option.isNone_none, List.length_cons, List.length_nil,
      decide_True, Bool.and_self, Bool.true_and, Bool.and_true, if_true]
    unfold fallbackLoopGuarded
    simp only [hv1, appendQueryParams_nil, hp1]
    simp
  · intro env args serviceName ns endpoint url0 url1 url2 e0 e1 r2
    intro hsn hep hm hns hqp hhd hto hrl hreg hv0 hp0 hv1 hp1 hv2 hp2
    unfold testEndpointGuarded
    rw [hsn, hep, hm, hns, hqp, hhd, hto, hrl]
    simp only [JsVal.undefined, JsVal.truthy, validateQueryParams, validateHeaders,
      validateTimeout, Bool.not_true, Bool.false_eq_true, if_false, hreg]
    have hmeth : validateHttpMethod (JsVal.str "GET") = .ok "GET" := rfl
    rw [hmeth]
    simp only [testPorts, List.headD, Option.map_none', jsOrStr]
    simp only [hv0, appendQueryParams_nil, hp0]
    simp only [List.drop, Option.isNone_none, List.length_cons, List.length_nil,
      decide_True, Bool.and_self, Bool.true_and, Bool.and_true, if_true]
    unfold fallbackLoopGuarded
    simp only [hv1, appendQueryParams_nil, hp1]
    unfold fallbackLoopGuarded
    simp only [hv2, appendQueryParams_nil, hp2]
    simp
  · intro env args serviceName ns endpoint m url0
    intro hsn hep hme hmne hns hqp hhd hto hrl hreg hv0
    unfold testEndpointGuarded
    rw [hsn, hep, hme, hns, hqp, hhd, hto, hrl]
    simp only [JsVal.undefined, validateQueryParams, validateHeaders, validateTimeout,
      Bool.not_true, Bool.false_eq_true, if_false, hreg]
    simp only [testPorts, List.headD, Option.map_none', jsOrStr]
    simp only [hv0, appendQueryParams_nil]
    cases hpr : env.probe url0.href with
    | ok response => simp
    | error e => simp [hmne]
  · intro env args serviceName ns cfg hsn hns hreg
    unfold testEndpointGuarded
    rw [hsn]
    cases hep : validateEndpoint args.endpoint with
    | error e => simp
    | ok endpoint =>
    cases hme : validateHttpMethod (if args.method.truthy then args.method else .str "GET") with
    | error e => simp
    | ok m =>
    rw [hns]
    cases hqp : validateQueryParams args.queryParams with
    | error e => simp
    | ok qp =>
    cases hhd : validateHeaders args.headers with
    | error e => simp
    | ok hd =>
    cases hto : validateTimeout args.timeout with
    | error e => simp
    | ok t =>
    cases hrl : env.rateLimitOk with
    | false => simp
    | true =>
    simp only [Bool.not_true, Bool.false_eq_true, if_false, hreg]
    cases hvu : validateUrl (jsOrStr (Option.map (fun x => x.baseUrl) (some cfg))
        (clusterBase serviceName ns ((testPorts (some cfg)).headD 8080)) ++ endpoint)
        (some (jsOrStr (Option.map (fun x => x.baseUrl) (some cfg))
          (clusterBase serviceName ns ((testPorts (some cfg)).headD 8080)))) with
    | error e => simp [hvu]
    | ok url =>
    simp only [hvu]
    cases hpr : env.probe (appendQueryParams url qp).href with
    | ok response => simp [hpr]
    | error e => simp [hpr]

/-- C6 witness: against `fbEnv` — port 8080 refuses, port 3000 answers
200 — the GET on the unregistered `homepage2` probes the 8080 URL and
then the 3000 URL, and returns the 3000 response. -/
theorem C6_get_fallback_ports_witness :
    findRegistry fbEnv.registry "homepage2" "default" = none ∧
    testEndpointGuarded fbEnv fbArgs =
      ⟨.ok (mkTestSuccess { statusCode := 200, headers := [], body := some "ok",
                            responseTime := 5 }),
       ["http://homepage2.default.svc.cluster.local:8080/health",
        "http://homepage2.default.svc.cluster.local:3000/health"]⟩ :=
  ⟨by decide,
   C6_get_fallback_ports.1 fbEnv fbArgs "homepage2" "default" "/health"
     ⟨"http", "homepage2.default.svc.cluster.local", some 8080, "/health", []⟩
     ⟨"http", "homepage2.default.svc.cluster.local", some 3000, "/health", []⟩
     { message := "Connection refused - service may be down" }
     { statusCode := 200, headers := [], body := some "ok", responseTime := 5 }
     rfl rfl rfl rfl rfl rfl rfl rfl (by decide)
     rfl rfl rfl rfl⟩

/-- C7: `validateHttpMethod` accepts a string exactly when its
upper-casing is GET, HEAD or OPTIONS (returning that upper-casing),
fails on every non-string, and fails on POST, PUT and DELETE; and every
`test_endpoint` call — in both variants — whose `method` argument is
POST returns a validation error envelope with an empty probe list, so no
outbound probe is issued. -/
theorem C7_http_method_allowlist :
    (∀ s : String, (validateHttpMethod (JsVal.str s)).isOk =
        (strUpper s = "GET" || strUpper s = "HEAD" || strUpper s = "OPTIONS")) ∧
    (∀ s m, validateHttpMethod (JsVal.str s) = .ok m → m = strUpper s) ∧
    (∀ v : JsVal, (∀ s, v ≠ JsVal.str s) → (validateHttpMethod v).isOk = false) ∧
    (validateHttpMethod (JsVal.str "POST")).isOk = false ∧
    (validateHttpMethod (JsVal.str "PUT")).isOk = false ∧
    (validateHttpMethod (JsVal.str "DELETE")).isOk = false ∧
    (∀ (env : ProbeEnv) (args : TestArgs), args.method = JsVal.str "POST" →
        (∃ e, testEndpointGuarded env args = ⟨.err e, []⟩) ∧
        (∃ e, testEndpointUnguarded env args = ⟨.err e, []⟩)) := by
  refine ⟨?_, ?_, ?_, by decide, by decide, by decide, ?_⟩
  · intro s
    unfold validateHttpMethod
    by_cases h1 : strUpper s = "GET" <;> by_cases h2 : strUpper s = "HEAD" <;>
      by_cases h3 : strUpper s = "OPTIONS" <;>
        simp [JsVal.str, h1, h2, h3, Except.isOk, Except.toBool]
  · intro s m h
    unfold validateHttpMethod at h
    by_cases h1 : strUpper s = "GET" <;> by_cases h2 : strUpper s = "HEAD" <;>
      by_cases h3 : strUpper s = "OPTIONS" <;>
        simp [JsVal.str, h1, h2, h3] at h <;>
        simp_all
  · intro v hv
    cases v with
    | prim p =>
      cases p with
      | str s => exact absurd rfl (hv s)
      | undefined => rfl
      | null => rfl
      | num n => rfl
      | boolean b => rfl
    | obj f => rfl
    | arr e => rfl
  · intro env args h
    constructor
    · unfold testEndpointGuarded
      rw [h]
      cases validateServiceName args.serviceName with
      | error e => exact ⟨sanitizeError e, rfl⟩
      | ok sn =>
        cases validateEndpoint args.endpoint with
        | error e => exact ⟨sanitizeError e, rfl⟩
        | ok ep => exact ⟨_, rfl⟩
    · unfold testEndpointUnguarded
      rw [h]
      cases validateServiceName args.serviceName with
      | error e => exact ⟨sanitizeError e, rfl⟩
      | ok sn =>
        cases validateEndpoint args.endpoint with
        | error e => exact ⟨sanitizeError e, rfl⟩
        | ok ep => exact ⟨_, rfl⟩

/-- C7 witness: `test_endpoint` of `/health` on `homepage` with method
POST yields an error envelope and an empty probe list in both
variants. -/
theorem C7_http_method_allowlist_witness :
    c7Args.method = JsVal.str "POST" ∧
    ((∃ e, testEndpointGuarded c7Env c7Args = ⟨.err e, []⟩) ∧
     (∃ e, testEndpointUnguarded c7Env c7Args = ⟨.err e, []⟩)) :=
  ⟨rfl, C7_http_method_allowlist.2.2.2.2.2.2 c7Env c7Args rfl⟩

/-- The overall health verdict is `"healthy"` exactly when both checks
are `"ok"`. -/
theorem computeOverall_eq_healthy_iff (K : String) (H : HttpCheckResult) :
    computeOverall K H = "healthy" ↔ (K = "ok" ∧ H.status = "ok") := by
  unfold computeOverall
  by_cases hK : K = "ok" <;> by_cases hH : H.status = "ok" <;> simp [hK, hH]

/-- An `"ok"` HTTP check always carries a status code in `[200, 400)`. -/
theorem computeHttpCheck_ok_range (p : String → Except HttpErr ProcessedResp)
    (b : String) (hep : JsVal) :
    (computeHttpCheck p b hep).status = "ok" →
    200 ≤ (computeHttpCheck p b hep).statusCode ∧
    (computeHttpCheck p b hep).statusCode < 400 := by
  unfold computeHttpCheck
  cases hve : validateEndpoint hep with
  | error e => simp [hve]
  | ok ve =>
    simp only [hve]
    cases hpr : p (b ++ ve) with
    | error e => simp [hpr]
    | ok response =>
      by_cases h1 : 200 ≤ response.statusCode <;>
        by_cases h2 : response.statusCode < 400 <;>
          simp [hpr, h1, h2]

/-- When every probe throws, the HTTP check is the sentinel
`statusCode=0, status="error"`. -/
theorem computeHttpCheck_all_fail (p : String → Except HttpErr ProcessedResp)
    (b : String) (hep : JsVal) (hall : ∀ u, (p u).isOk = false) :
    (computeHttpCheck p b hep).statusCode = 0 ∧
    (computeHttpCheck p b hep).status = "error" := by
  unfold computeHttpCheck
  cases hve : validateEndpoint hep with
  | error e => exact ⟨by simp [hve], by simp [hve]⟩
  | ok ve =>
    simp only [hve]
    cases hpr : p (b ++ ve) with
    | error e => exact ⟨by simp [hpr], by simp [hpr]⟩
    | ok response =>
      have hcontra := hall (b ++ ve)
      rw [hpr] at hcontra
      cases hcontra

/-- C9: every successful `get_service_health` result is `"healthy"` iff
the Kubernetes check is `"ok"` and the HTTP check is `"ok"`, an `"ok"`
HTTP check means the probe answered with a status code in `[200, 400)`;
and when every probe fails (e.g. times out), the result's HTTP check is
the sentinel `statusCode=0` with overall status `"unhealthy"` — the
failure is captured, not propagated. -/
theorem C9_health_requires_both_checks :
    (∀ (env : HealthEnv) (args : HealthArgs) (r : HealthResult),
        getServiceHealth env args = .ok r →
        ((r.status = "healthy" ↔ (r.k8sStatus = "ok" ∧ r.http.status = "ok")) ∧
         (r.http.status = "ok" →
           200 ≤ r.http.statusCode ∧ r.http.statusCode < 400))) ∧
    (∀ (env : HealthEnv) (args : HealthArgs) (r : HealthResult),
        (∀ u, (env.probe u).isOk = false) →
        getServiceHealth env args = .ok r →
        (r.http.statusCode = 0 ∧ r.http.status = "error" ∧ r.status = "unhealthy")) := by
  constructor
  · intro env args r h
    unfold getServiceHealth at h
    cases h1 : validateServiceName args.serviceName with
    | error e => rw [h1] at h; cases h
    | ok serviceName =>
    rw [h1] at h
    cases h2 : validateNamespace args.«namespace» with
    | error e => rw [h2] at h; cases h
    | ok ns =>
    rw [h2] at h
    cases hrl : env.rateLimitOk with
    | false => rw [hrl] at h; cases h
    | true =>
    rw [hrl] at h
    simp only [Bool.not_true, Bool.false_eq_true, if_false] at h
    cases hsvc : env.getService with
    | error e => rw [hsvc] at h; cases h
    | ok service =>
    rw [hsvc] at h
    rw [Except.ok.injEq] at h
    subst h
    exact ⟨computeOverall_eq_healthy_iff _ _, computeHttpCheck_ok_range _ _ _⟩
  · intro env args r hall h
    unfold getServiceHealth at h
    cases h1 : validateServiceName args.serviceName with
    | error e => rw [h1] at h; cases h
    | ok serviceName =>
    rw [h1] at h
    cases h2 : validateNamespace args.«namespace» with
    | error e => rw [h2] at h; cases h
    | ok ns =>
    rw [h2] at h
    cases hrl : env.rateLimitOk with
    | false => rw [hrl] at h; cases h
    | true =>
    rw [hrl] at h
    simp only [Bool.not_true, Bool.false_eq_true, if_false] at h
    cases hsvc : env.getService with
    | error e => rw [hsvc] at h; cases h
    | ok service =>
    rw [hsvc] at h
    rw [Except.ok.injEq] at h
    subst h
    obtain ⟨hc0, hcerr⟩ := computeHttpCheck_all_fail env.probe _ _ hall
    refine ⟨hc0, hcerr, ?_⟩
    simp [computeOverall, hcerr]

/-- C9 witness: a service with one running, ready pod whose health probe
times out reports `checks.http.statusCode = 0` and overall
`"unhealthy"`. -/
theorem C9_health_requires_both_checks_witness :
    (∀ u, ((timeoutHealthEnv.probe u).isOk = false)) ∧
    ∃ r, getServiceHealth timeoutHealthEnv timeoutHealthArgs = .ok r ∧
      r.http.statusCode = 0 ∧ r.http.status = "error" ∧ r.status = "unhealthy" :=
  ⟨fun _ => rfl,
   ⟨{ serviceName := "web", status := "unhealthy", podsRunning := 1, podsTotal := 1,
      k8sStatus := "ok",
      http := { endpoint := "/health", statusCode := 0, responseTime := 0, status := "error" } },
    rfl,
    C9_health_requires_both_checks.2 timeoutHealthEnv timeoutHealthArgs
      { serviceName := "web", status := "unhealthy", podsRunning := 1, podsTotal := 1,
        k8sStatus := "ok",
        http := { endpoint := "/health", statusCode := 0, responseTime := 0, status := "error" } }
      (fun _ => rfl) rfl⟩⟩

/-- C10: `sanitizeHeaders` maps every header whose lowercased name
contains `authorization`, `cookie`, `set-cookie` or `x-api-key` as a
substring to `"[REDACTED]"` and stringifies every other header
unchanged; the substring test is characterized as list-infix; and every
response — normal or error-attached — returned by the probe client's
GET, HEAD and OPTIONS goes through `sanitizeHeaders`. -/
theorem C10_probe_headers_redacted :
    (∀ (headers : List (String × HeaderVal)) (k : String) (v : HeaderVal),
        (k, v) ∈ headers → isSensitiveHeader k = true →
        (k, "[REDACTED]") ∈ sanitizeHeaders headers) ∧
    (∀ (headers : List (String × HeaderVal)) (k : String) (v : HeaderVal),
        (k, v) ∈ headers → isSensitiveHeader k = false →
        (k, v.stringify) ∈ sanitizeHeaders headers) ∧
    (∀ k, isSensitiveHeader k = true ↔
        ∃ sk ∈ sensitiveKeys, sk.data <:+: (strLower k).data) ∧
    (∀ (hay needle : List Char), charsInclude hay needle = true ↔ needle <:+: hay) ∧
    (∀ status hdrs body t, HttpClient.get (.response status hdrs body) t =
        .ok ⟨status, sanitizeHeaders hdrs, body, t⟩) ∧
    (∀ status hdrs body t, HttpClient.get (.errorResponse status hdrs body) t =
        .ok ⟨status, sanitizeHeaders hdrs, body, t⟩) ∧
    (∀ status hdrs body t, HttpClient.head (.response status hdrs body) t =
        .ok ⟨status, sanitizeHeaders hdrs, none, t⟩) ∧
    (∀ status hdrs body t, HttpClient.options (.response status hdrs body) t =
        .ok ⟨status, sanitizeHeaders hdrs, none, t⟩) := by
  have hinc : ∀ (hay needle : List Char),
      charsInclude hay needle = true ↔ needle <:+: hay := by
    intro hay
    induction hay with
    | nil =>
      intro needle
      simp [charsInclude, List.infix_nil, List.isEmpty_iff]
    | cons a s ih =>
      intro needle
      simp [charsInclude, List.infix_cons_iff, List.isPrefixOf_iff_prefix, ih,
        Bool.or_eq_true]
  refine ⟨?_, ?_, ?_, hinc,
    fun _ _ _ _ => rfl, fun _ _ _ _ => rfl, fun _ _ _ _ => rfl, fun _ _ _ _ => rfl⟩
  · intro headers k v hmem hsens
    have h := List.mem_map_of_mem
      (fun kv => if isSensitiveHeader kv.1 then (kv.1, "[REDACTED]")
                 else (kv.1, HeaderVal.stringify kv.2)) hmem
    simpa [sanitizeHeaders, hsens] using h
  · intro headers k v hmem hsens
    have h := List.mem_map_of_mem
      (fun kv => if isSensitiveHeader kv.1 then (kv.1, "[REDACTED]")
                 else (kv.1, HeaderVal.stringify kv.2)) hmem
    simpa [sanitizeHeaders, hsens] using h
  · intro k
    simp [isSensitiveHeader, List.any_eq_true, hinc]

/-- C10 witness: a `Set-Cookie` response header is redacted while a
`Content-Type` header passes through. -/
theorem C10_probe_headers_redacted_witness :
    (("Set-Cookie", HeaderVal.one "session=abc") ∈
       [("Content-Type", HeaderVal.one "text/html"),
        ("Set-Cookie", HeaderVal.one "session=abc")]) ∧
    isSensitiveHeader "Set-Cookie" = true ∧
    ("Set-Cookie", "[REDACTED]") ∈
      sanitizeHeaders
        [("Content-Type", HeaderVal.one "text/html"),
         ("Set-Cookie", HeaderVal.one "session=abc")] :=
  ⟨by decide, by decide,
   C10_probe_headers_redacted.1 _ "Set-Cookie" (HeaderVal.one "session=abc")
     (by decide) (by decide)⟩

end ClusterServices
